import Mathlib

set_option maxRecDepth 8192

/-!
Verification of the MandalaMind `GeminiService` (server/services/gemini.ts).

The service is embedded shallowly:

* JavaScript strings are Lean `String`s; `charCodeAt` iteration and `.length`
  are modelled on UTF-16 code units (`utf16CodeUnits`, `utf16Length`), which
  agree with JavaScript for every input.  `toLowerCase` is modelled by
  `jsToLower` (ASCII case mapping — all keywords in the service are
  ASCII).
* JavaScript 32-bit integer operations (`<<`, `& `) are modelled on `Int`
  with explicit truncation `toInt32`; `Math.abs` is `Int.natAbs`.
* The seeded PRNG closure (`createSeededRandom`) is modelled by explicit
  state passing: the mutable `currentSeed` cell becomes a `Nat` that every
  layer generator receives and returns.  No generator in the source ever
  invokes the closure, so every generator returns its state unchanged —
  exactly what the source bodies do.
* `Math.cos`/`Math.sin` (floating point) are modelled by `Real.cos`/`Real.sin`
  on exact rationals; the emitted dot layer is kept structurally (ring radius
  and angle in degrees) because a byte-exact float rendering is not statable.
  The scene serializer renders dots with an injective symbolic encoding; all
  properties proved below (determinism, counts, spacing, data-URI shape) are
  insensitive to that encoding choice.
* The remote Gemini collaborators are modelled as explicit attempt-outcome
  parameters (`Except` values): a thrown error or a list of response parts.
  The retry loops of `generateMandalaPrompt` (3 attempts) and
  `generateMandalaImage` (2 attempts) are unrolled over those parameters.
-/

/-! ## UTF-16 code units (JavaScript string model) -/

/-- UTF-16 code units of a character, as JavaScript exposes them
(`charCodeAt`): one unit below U+10000, a surrogate pair above. -/
def charUtf16 (c : Char) : List Nat :=
  if c.toNat < 65536 then [c.toNat]
  else [55296 + (c.toNat - 65536) / 1024, 56320 + (c.toNat - 65536) % 1024]

/-- UTF-16 code-unit sequence of a string (JavaScript's indexing model). -/
def utf16CodeUnits (s : String) : List Nat :=
  (s.data.map charUtf16).flatten

/-- JavaScript `string.length`: number of UTF-16 code units. -/
def utf16Length (s : String) : Nat :=
  (utf16CodeUnits s).length

/-! ## Substring search (JavaScript `String.prototype.includes`) -/

/-- Does the needle match at the head of the haystack? -/
def headMatches : List Char → List Char → Bool
  | [], _ => true
  | _ :: _, [] => false
  | a :: as, b :: bs => a == b && headMatches as bs

/-- Does the needle occur as a contiguous sublist of the haystack? -/
def subOccurs (n : List Char) : List Char → Bool
  | [] => n.isEmpty
  | c :: t => headMatches n (c :: t) || subOccurs n t

/-- JavaScript `hay.includes(needle)`. -/
def strIncludes (hay needle : String) : Bool :=
  subOccurs needle.data hay.data

/-- JavaScript `toLowerCase` (ASCII case mapping, structurally recursive so
that concrete instances reduce). -/
def jsToLower (s : String) : String :=
  ⟨s.data.map Char.toLower⟩

/-! ## Word-boundary regex matching

The service tests the lower-cased transcript against regexes of the shape
`\b(w1|w2|...)\b.test(s)` where every alternative `wi` consists of word
characters.  For such a pattern, the regex matches iff some `wi` occurs in
`s` at a position whose neighbouring characters (when present) are
non-word characters.  `\w` is `[A-Za-z0-9_]`. -/

/-- JavaScript regex word character `\w`. -/
def wordCharB (c : Char) : Bool :=
  c.isAlpha || c.isDigit || c == '_'

/-- If the needle matches at the head, return the remaining haystack. -/
def matchRest : List Char → List Char → Option (List Char)
  | [], h => some h
  | _ :: _, [] => none
  | a :: as, b :: bs => if a == b then matchRest as bs else none

/-- Boundary condition after a match: end of string or a non-word char. -/
def restBoundary : Option (List Char) → Bool
  | none => false
  | some [] => true
  | some (c :: _) => !wordCharB c

/-- Boundary condition before a match: start of string or a non-word char. -/
def beforeBoundary : Option Char → Bool
  | none => true
  | some c => !wordCharB c

/-- The word matches at the current position with a right boundary. -/
def wordAtHead (w : List Char) (h : List Char) : Bool :=
  restBoundary (matchRest w h)

/-- Scan the haystack for a whole-word occurrence of `w`; `pre` is the
character immediately before the current position, if any. -/
def scanWord (w : List Char) (pre : Option Char) : List Char → Bool
  | [] => beforeBoundary pre && wordAtHead w []
  | c :: t => (beforeBoundary pre && wordAtHead w (c :: t)) || scanWord w (some c) t

/-- `\bw\b.test(s)` for a single word `w` of word characters. -/
def testWord (w : String) (s : String) : Bool :=
  scanWord w.data none s.data

/-- `\b(w1|w2|...)\b.test(s)`: true iff some alternative matches as a
whole word. -/
def testAnyWord (ws : List String) (s : String) : Bool :=
  ws.any (fun w => testWord w s)

/-! ## Seed derivation (`createSeedFromInput`, gemini.ts lines 447-456) -/

/-- Truncation to a 32-bit signed integer (JavaScript `x | 0` / `x & x`). -/
def toInt32 (n : Int) : Int :=
  (n + 2147483648) % 4294967296 - 2147483648

/-- One step of the hash loop: `hash = ((hash << 5) - hash) + char;
hash = hash & hash`.  The `<<` operator truncates its result to 32-bit
signed before the subtraction; the final `& ` truncates again. -/
def hashStep (h : Int) (c : Nat) : Int :=
  toInt32 (toInt32 (h * 32) - h + c)

/-- Decimal-digit string contributed by the brainwave data:
`` `${attention}${meditation}${signalQuality}` `` or the empty string. -/
structure BrainwaveData where
  attention : Nat
  meditation : Nat
  signalQuality : Nat
deriving DecidableEq

/-- String appended to the prompt before hashing (gemini.ts line 449). -/
def brainwaveDigits : Option BrainwaveData → String
  | none => ""
  | some b => toString b.attention ++ toString b.meditation ++ toString b.signalQuality

/-- `createSeedFromInput(prompt, brainwaveData)`: fold the hash step over
the UTF-16 code units of the concatenated string and return `Math.abs`. -/
def createSeedFromInput (prompt : String) (bw : Option BrainwaveData) : Nat :=
  (List.foldl hashStep 0 (utf16CodeUnits (prompt ++ brainwaveDigits bw))).natAbs

/-! ## Seeded PRNG (`createSeededRandom`, gemini.ts lines 458-464) -/

/-- One advance of the linear-congruential state:
`currentSeed = (currentSeed * 9301 + 49297) % 233280`. -/
def lcgNext (s : Nat) : Nat :=
  (s * 9301 + 49297) % 233280

/-- State of the generator after `n` draws, starting from `seed`. -/
def lcgState (seed : Nat) : Nat → Nat
  | 0 => seed
  | n + 1 => lcgNext (lcgState seed n)

/-- Value returned by the `n`-th call (0-based) of the closure produced by
`createSeededRandom(seed)`: the freshly advanced state divided by 233280. -/
def createSeededRandom (seed : Nat) (n : Nat) : ℚ :=
  (lcgState seed (n + 1) : ℚ) / 233280

/-- First `N` draws of the generator. -/
def lcgDraws (seed N : Nat) : List ℚ :=
  (List.range N).map (createSeededRandom seed)

/-! ## Theme extraction (`extractThemesFromVoice`, gemini.ts lines 363-383) -/

structure ThemeFlags where
  peace : Bool
  love : Bool
  strength : Bool
  growth : Bool
  gratitude : Bool
deriving DecidableEq

def peaceWords : List String :=
  ["peace", "calm", "serene", "tranquil", "quiet", "still", "harmony", "balance"]

def loveWords : List String :=
  ["love", "heart", "compassion", "kindness", "care", "affection", "warmth"]

def strengthWords : List String :=
  ["strength", "strong", "power", "courage", "confident", "brave", "determined"]

def growthWords : List String :=
  ["grow", "change", "transform", "evolve", "progress", "develop", "journey", "path"]

def gratitudeWords : List String :=
  ["grateful", "thank", "appreciation", "blessed", "fortunate", "abundance"]

/-- `extractThemesFromVoice`: an empty (falsy) transcript yields all-false;
otherwise each flag tests its word-boundary alternation regex against the
lower-cased transcript. -/
def extractThemesFromVoice (voiceTranscript : String) : ThemeFlags :=
  if voiceTranscript = "" then
    ⟨false, false, false, false, false⟩
  else
    let lower := jsToLower voiceTranscript
    ⟨testAnyWord peaceWords lower,
     testAnyWord loveWords lower,
     testAnyWord strengthWords lower,
     testAnyWord growthWords lower,
     testAnyWord gratitudeWords lower⟩

/-! ## Style resolution (`determineMandalaStyle`, gemini.ts lines 466-474) -/

inductive MandalaStyle where
  | dotpainting
  | geometric
  | floral
  | sacred
deriving DecidableEq

/-- Keyword test for the dot-painting rule. -/
def hasDotKeyword (prompt : String) : Bool :=
  strIncludes (jsToLower prompt) "dot" || strIncludes (jsToLower prompt) "aboriginal"

/-- Keyword test for the sacred rule. -/
def hasSacredKeyword (prompt : String) : Bool :=
  strIncludes (jsToLower prompt) "geometric" || strIncludes (jsToLower prompt) "sacred"

/-- Keyword test for the floral rule. -/
def hasFloralKeyword (prompt : String) : Bool :=
  strIncludes (jsToLower prompt) "flower" || strIncludes (jsToLower prompt) "petal"

/-- `determineMandalaStyle`: first matching rule wins, default `geometric`. -/
def determineMandalaStyle (prompt : String) : MandalaStyle :=
  if hasDotKeyword prompt then .dotpainting
  else if hasSacredKeyword prompt then .sacred
  else if hasFloralKeyword prompt then .floral
  else .geometric

/-! ## Brainwave-driven prompt descriptors (`generateMandalaImage`, lines 144-177) -/

/-- Apostrophe character, kept out of string literals. -/
def apos : String := String.singleton (Char.ofNat 39)

/-- `complexityLevel` chosen from the attention axis. -/
def complexityLevel (bw : BrainwaveData) : String :=
  if 70 < bw.attention then
    "highly intricate and precisely detailed with sharp geometric precision"
  else if bw.attention < 30 then
    "flowing and organic with soft, dreamy details"
  else
    "balanced complexity with harmonious details"

/-- Fragment appended to `styleModifiers` by the attention branch. -/
def attentionModifier (bw : BrainwaveData) : String :=
  if 70 < bw.attention then
    "focused energy patterns with crystalline clarity, "
  else if bw.attention < 30 then
    "gentle, flowing energy with soft focus, "
  else
    "centered and stable energy patterns, "

/-- `colorIntensity` chosen from the meditation axis. -/
def colorIntensity (bw : BrainwaveData) : String :=
  if 70 < bw.meditation then
    "deep, calming colors with gentle gradients and peaceful luminescence"
  else if bw.meditation < 30 then
    "vibrant, dynamic colors with energetic contrasts and bright highlights"
  else
    "balanced color palette with moderate intensity and natural harmony"

/-- Fragment appended to `styleModifiers` by the meditation branch. -/
def meditationModifier (bw : BrainwaveData) : String :=
  if 70 < bw.meditation then
    "serene and tranquil atmosphere with smooth color transitions, "
  else if bw.meditation < 30 then
    "active and energetic atmosphere with bold color contrasts, "
  else
    "harmonious and balanced energy, "

/-- Fragment appended to `styleModifiers` by the signal-quality branch. -/
def signalModifier (bw : BrainwaveData) : String :=
  if bw.signalQuality < 50 then
    "with subtle ethereal effects and mystical atmosphere, "
  else ""

/-- `styleModifiers` accumulates attention, then meditation, then signal
fragments, in source order. -/
def styleModifiers (bw : BrainwaveData) : String :=
  attentionModifier bw ++ meditationModifier bw ++ signalModifier bw

/-- Body of the `enhancedPrompt` template literal (lines 179-208). -/
def enhancedPromptText (prompt cl ci sm : String) : String :=
  "Create an exquisite traditional dot painting mandala masterpiece: " ++ prompt
  ++ ". \n    \n    MANDALA STRUCTURE:\n    - Perfectly circular and symmetrical design with " ++ cl
  ++ "\n    - Multiple concentric rings of dots in varying sizes (from tiny pinpoints to larger accent dots)\n    - Sacred geometric patterns including lotus petals, triangular formations, and spiral motifs\n    - Traditional Aboriginal-inspired dot work technique with modern spiritual symbolism\n    \n    COLOR PALETTE & ATMOSPHERE:\n    - " ++ ci
  ++ "\n    - Deep celestial blue background (#1a237e to #000051 gradient)\n    - Luminous white and light blue dots (#ffffff, #e3f2fd, #bbdefb) creating stellar effects\n    - Accent colors: gold (#ffd700), turquoise (#40e0d0), and lavender (#e6e6fa)\n    - " ++ sm
  ++ "\n    \n    ARTISTIC DETAILS:\n    - Center: Sacred symbol or flower motif with radiating energy\n    - Inner rings: Detailed lotus petals with intricate dot patterns\n    - Middle rings: Geometric patterns, mandalic squares, and triangular formations\n    - Outer rings: Protective circles with guardian symbols and flowing energy\n    - Edge: Subtle starburst effects and cosmic energy radiations\n    \n    TECHNIQUE:\n    - Traditional pointillism technique with varying dot densities\n    - Dots should create optical mixing and luminous effects\n    - Perfect symmetry across all axes\n    - Professional spiritual artwork quality\n    - Fills entire circular canvas with balanced composition\n    \n    The final result should be a breathtakingly beautiful, spiritually uplifting mandala that reflects the user"
  ++ apos
  ++ "s mental and emotional state through color, pattern, and energy flow. High resolution, museum-quality artistic rendering."

/-- The enhanced prompt built by `generateMandalaImage` before any remote
attempt: descriptors from the brainwave data, or fixed defaults when the
data is absent. -/
def enhancedPrompt (prompt : String) (bw : Option BrainwaveData) : String :=
  match bw with
  | some b => enhancedPromptText prompt (complexityLevel b) (colorIntensity b) (styleModifiers b)
  | none => enhancedPromptText prompt "intricate and detailed" "vibrant and luminous colors"
      "balanced energy and harmonious design, "

/-! ## Fallback prompt (`getFallbackPrompt`, gemini.ts lines 286-360) -/

inductive PromptStyle where
  | traditional
  | modern
  | abstract
  | spiritual
deriving DecidableEq

inductive PaletteChoice where
  | warm
  | cool
  | vibrant
  | monochrome
deriving DecidableEq

structure MandalaGenerationOptions where
  voiceTranscript : String
  brainwaveData : BrainwaveData
  style : Option PromptStyle
  colorPalette : Option PaletteChoice

/-- The `colorPalettes` record (lines 314-319). -/
def paletteText : PaletteChoice → String
  | .warm => "warm sunset palette: deep oranges (#ff8c00), rich reds (#dc143c), golden yellows (#ffd700), and bronze dots (#cd7f32) against a deep amber background (#ff8c00 to #8b4513 gradient)"
  | .cool => "cool celestial palette: deep midnight blues (#191970), purples (#663399), teals (#008b8b), and silver-white dots (#f5f5dc) against a cosmic blue background (#000080 to #191970 gradient)"
  | .vibrant => "vibrant cosmic palette: electric blues (#0066ff), luminous whites (#ffffff), light blues (#87ceeb), turquoise accents (#40e0d0), and gold highlights (#ffd700) against a deep space blue background (#000051 to #1a237e gradient)"
  | .monochrome => "sophisticated monochrome palette: pure whites (#ffffff), light grays (#d3d3d3), medium grays (#808080), and charcoal (#36454f) against a deep black background (#000000 to #1c1c1c gradient)"

/-- The `styleEnhancements` record (lines 345-350). -/
def styleText : PromptStyle → String
  | .traditional => "with classical mandala elements, traditional Buddhist and Hindu symbolism, and time-honored sacred geometry"
  | .modern => "with contemporary geometric interpretations, sleek minimalist elements, and innovative pattern combinations"
  | .abstract => "with experimental dot arrangements, unconventional symmetries, and artistic expression that breaks traditional boundaries"
  | .spiritual => "with deep sacred symbolism, chakra representations, and mystical elements that connect to universal consciousness"

def fallbackBase : String :=
  "Create an exquisite traditional dot painting mandala masterpiece with concentric circles of luminous dots in varying sizes. "

/-- Attention-based structural sentence (lines 296-302). -/
def fallbackAttention (bw : BrainwaveData) : String :=
  if 70 < bw.attention then
    "Ultra-precise geometric dot patterns with crystalline clarity, sharp angular formations, and highly detailed symmetrical structures. Each dot perfectly placed for maximum focus and concentration energy. "
  else if bw.attention < 30 then
    "Soft, organic dot patterns with flowing transitions, gentle curves, and dreamy ethereal formations. Dots create flowing energy like water or clouds. "
  else
    "Balanced dot patterns with harmonious geometric structures, moderate complexity, and stable radial symmetry. Perfect equilibrium between order and flow. "

/-- Meditation-based flow sentence (lines 305-311). -/
def fallbackMeditation (bw : BrainwaveData) : String :=
  if 70 < bw.meditation then
    "Deep, peaceful dot gradients creating waves of tranquility, with gentle spirals and calming circular patterns that radiate serene energy from the center outward. "
  else if bw.meditation < 30 then
    "Dynamic, energetic dot work with vibrant spiral patterns, active radiating lines, and pulsing geometric forms that express vitality and movement. "
  else
    "Centered, grounded dot patterns with stable circular formations and balanced energy distribution throughout the design. "

def fallbackColorScheme (opts : MandalaGenerationOptions) : String :=
  "Color scheme: " ++ paletteText (opts.colorPalette.getD .vibrant) ++ ". "

def peaceSentence : String :=
  "Incorporate symbols of inner peace: dove motifs, olive branches, and gentle wave patterns flowing through the dot work. "

def loveSentence : String :=
  "Include heart-centered symbolism: lotus flowers blooming from the center, infinity symbols, and radiating rays of compassion. "

def strengthSentence : String :=
  "Add symbols of inner strength: mountain-like triangular patterns, shield formations, and bold radiating lines of empowerment. "

def growthSentence : String :=
  "Express transformation: spiral patterns, tree-like branching formations, and evolving geometric patterns that grow in complexity. "

def gratitudeSentence : String :=
  "Embody gratitude: sun-like radiating patterns, flowering motifs, and warm embracing circles that express appreciation. "

/-- Voice-transcript theme block (lines 324-342): guarded by a truthy
transcript of JavaScript length strictly greater than 5. -/
def themeSegment (opts : MandalaGenerationOptions) : String :=
  let vt := opts.voiceTranscript
  let themes := extractThemesFromVoice vt
  if vt ≠ "" ∧ 5 < utf16Length vt then
    let lower := jsToLower vt
    (if themes.peace || strIncludes lower "peace" || strIncludes lower "calm" then peaceSentence else "")
    ++ (if themes.love || strIncludes lower "love" || strIncludes lower "heart" then loveSentence else "")
    ++ (if themes.strength || strIncludes lower "strength" || strIncludes lower "power" then strengthSentence else "")
    ++ (if themes.growth || strIncludes lower "growth" || strIncludes lower "change" then growthSentence else "")
    ++ (if themes.gratitude || strIncludes lower "grateful" || strIncludes lower "thank" then gratitudeSentence else "")
  else ""

def fallbackAesthetic (opts : MandalaGenerationOptions) : String :=
  "Design aesthetic: " ++ styleText (opts.style.getD .spiritual) ++ ". "

def fallbackTail : String :=
  "Multiple layers of intricate dot work radiating from a powerful center motif outward through concentric rings of increasing complexity. "
  ++ "Perfect circular composition with museum-quality artistic detail, spiritual depth, and breathtaking beauty that inspires meditation and inner reflection. "
  ++ "Each dot placed with intention to create optical harmony and luminous effects that seem to glow with inner light."

/-- `getFallbackPrompt`: the successive `+=` appends of the source, in
order: base, attention, meditation, color scheme, theme block, aesthetic,
closing sentences. -/
def getFallbackPrompt (opts : MandalaGenerationOptions) : String :=
  fallbackBase ++ fallbackAttention opts.brainwaveData ++ fallbackMeditation opts.brainwaveData
    ++ fallbackColorScheme opts ++ themeSegment opts ++ fallbackAesthetic opts ++ fallbackTail

/-! ## Color extraction (`extractColorsFromPrompt`, gemini.ts lines 476-507) -/

structure MandalaColors where
  center : String
  outer : String
  dots : String
  accent : String
  secondary : String
  tertiary : String
  gradient : List String
deriving DecidableEq

/-- Default cool-blue palette (lines 483-491). -/
def defaultColors : MandalaColors :=
  { center := "#ffffff", outer := "#1a237e", dots := "#e3f2fd", accent := "#3949ab",
    secondary := "#26c6da", tertiary := "#42a5f5",
    gradient := ["#e3f2fd", "#bbdefb", "#90caf9", "#64b5f6", "#42a5f5", "#2196f3", "#1976d2", "#1565c0"] }

/-- Vivid palette selected on the `vibrant`/`bright` keywords (lines 494-504). -/
def vibrantColors : MandalaColors :=
  { center := "#ffffff", outer := "#9c27b0", dots := "#e91e63", accent := "#ff9800",
    secondary := "#4caf50", tertiary := "#2196f3",
    gradient := ["#e91e63", "#9c27b0", "#673ab7", "#3f51b5", "#2196f3", "#00bcd4", "#009688", "#4caf50", "#8bc34a", "#cddc39", "#ffeb3b", "#ffc107", "#ff9800"] }

/-- `extractColorsFromPrompt`: the source initialises the default palette
and overwrites it whole when the lower-cased prompt contains `vibrant` or
`bright`; the net result is this selection. -/
def extractColorsFromPrompt (prompt : String) : MandalaColors :=
  if strIncludes (jsToLower prompt) "vibrant" || strIncludes (jsToLower prompt) "bright" then
    vibrantColors
  else
    defaultColors

/-- `addColorVariation(colors, seededRandom)` returns its color argument
unchanged and performs no draw (line 511: `return colors`).  The second
component is the untouched PRNG state. -/
def addColorVariation (colors : MandalaColors) (rng : Nat) : MandalaColors × Nat :=
  (colors, rng)

/-! ## Layer generators (gemini.ts lines 514-616)

Each generator receives the PRNG state (the `seededRandom` closure of the
source) and returns it together with its output; no source body ever calls
the closure, so each returns the state unchanged. -/

/-- `generateGradients` (lines 514-521). -/
def generateGradients (c : MandalaColors) (_style : MandalaStyle) (rng : Nat) : String × Nat :=
  ("\n      <radialGradient id=\"bgGradient\" cx=\"50%\" cy=\"50%\" r=\"50%\">\n        <stop offset=\"0%\" style=\"stop-color:" ++ c.center
    ++ ";stop-opacity:1\" />\n        <stop offset=\"100%\" style=\"stop-color:" ++ c.outer
    ++ ";stop-opacity:1\" />\n      </radialGradient>\n    ", rng)

/-- `generatePatterns` (lines 523-529). -/
def generatePatterns (c : MandalaColors) (rng : Nat) : String × Nat :=
  ("\n      <pattern id=\"dots\" patternUnits=\"userSpaceOnUse\" width=\"8\" height=\"8\">\n        <circle cx=\"4\" cy=\"4\" r=\"1.5\" fill=\"" ++ c.dots
    ++ "\" opacity=\"0.7\"/>\n      </pattern>\n    ", rng)

/-- `generateFilters` (lines 531-541), a constant. -/
def generateFilters : String :=
  "\n      <filter id=\"glow\" x=\"-50%\" y=\"-50%\" width=\"200%\" height=\"200%\">\n        <feGaussianBlur stdDeviation=\"3\" result=\"coloredBlur\"/>\n        <feMerge> \n          <feMergeNode in=\"coloredBlur\"/>\n          <feMergeNode in=\"SourceGraphic\"/>\n        </feMerge>\n      </filter>\n    "

/-- The fixed `petalCount` of the outer ring (line 545). -/
def outerPetalCount : Nat := 12

/-- Rotation angles of the outer-ring motifs: `(360 / petalCount) * i`. -/
def outerRingAngles : List Nat :=
  (List.range outerPetalCount).map (fun i => (360 / outerPetalCount) * i)

/-- One outer-ring motif: a rotated dot pair (lines 548-553). -/
def outerRingMotif (c : MandalaColors) (angle : Nat) : String :=
  "\n        <g transform=\"rotate(" ++ toString angle
    ++ ")\">\n          <circle cx=\"0\" cy=\"-180\" r=\"8\" fill=\"" ++ c.accent
    ++ "\" opacity=\"0.8\"/>\n          <circle cx=\"0\" cy=\"-160\" r=\"4\" fill=\"" ++ c.dots
    ++ "\" opacity=\"0.9\"/>\n        </g>\n      "

/-- `generateOuterRing` (lines 543-556): `petalCount` motifs accumulated
in index order. -/
def generateOuterRing (c : MandalaColors) (_style : MandalaStyle) (rng : Nat) : String × Nat :=
  (String.join (outerRingAngles.map (outerRingMotif c)), rng)

/-- `generateMiddleRings` (lines 558-563). -/
def generateMiddleRings (c : MandalaColors) (_style : MandalaStyle) (rng : Nat) : String × Nat :=
  ("\n      <circle r=\"120\" fill=\"none\" stroke=\"" ++ c.accent
    ++ "\" stroke-width=\"2\" opacity=\"0.6\"/>\n      <circle r=\"80\" fill=\"none\" stroke=\"" ++ c.secondary
    ++ "\" stroke-width=\"1\" opacity=\"0.7\"/>\n    ", rng)

/-- `generateInnerPatterns` (lines 565-570). -/
def generateInnerPatterns (c : MandalaColors) (_style : MandalaStyle) (rng : Nat) : String × Nat :=
  ("\n      <circle r=\"60\" fill=\"none\" stroke=\"" ++ c.tertiary
    ++ "\" stroke-width=\"2\" opacity=\"0.8\"/>\n      <circle r=\"40\" fill=\"none\" stroke=\"" ++ c.dots
    ++ "\" stroke-width=\"1\" opacity=\"0.9\"/>\n    ", rng)

/-- The fixed `count` of the detailed petals (line 574). -/
def petalDetailCount : Nat := 8

/-- Rotation angles of the detailed petals: `(360 / count) * i`. -/
def petalDetailAngles : List Nat :=
  (List.range petalDetailCount).map (fun i => (360 / petalDetailCount) * i)

/-- One detailed-petal motif (lines 577-581). -/
def petalMotif (c : MandalaColors) (angle : Nat) : String :=
  "\n        <g transform=\"rotate(" ++ toString angle
    ++ ")\">\n          <circle cx=\"0\" cy=\"-50\" r=\"6\" fill=\"" ++ c.accent
    ++ "\" opacity=\"0.7\"/>\n        </g>\n      "

/-- `generateDetailedPetals` (lines 572-584). -/
def generateDetailedPetals (c : MandalaColors) (_style : MandalaStyle) (rng : Nat) : String × Nat :=
  (String.join (petalDetailAngles.map (petalMotif c)), rng)

/-- `generateSacredGeometry` (lines 586-590). -/
def generateSacredGeometry (c : MandalaColors) (_style : MandalaStyle) (rng : Nat) : String × Nat :=
  ("\n      <circle r=\"30\" fill=\"none\" stroke=\"" ++ c.dots
    ++ "\" stroke-width=\"1\" opacity=\"0.5\"/>\n    ", rng)

/-- One emitted dot of the dot field, kept structurally: the ring radius
and the angle in degrees determine the Cartesian position
`(r·cos θ, r·sin θ)` the source computes with `Math.cos`/`Math.sin`. -/
structure MandalaDot where
  ring : Nat
  thetaDeg : ℚ
  fill : String
deriving DecidableEq

/-- The fixed ascending `rings` radius list (line 594). -/
def dotRingRadii : List Nat := [20, 35, 50]

/-- Dots of one ring: `floor(radius / 2)` dots at angles
`(360 / dotCount) * i` (lines 596-605). -/
def dotsForRing (c : MandalaColors) (radius : Nat) : List MandalaDot :=
  (List.range (radius / 2)).map
    (fun (i : Nat) =>
      { ring := radius, thetaDeg := ((360 : ℚ) / ((radius / 2 : Nat) : ℚ)) * (i : ℚ),
        fill := c.dots })

/-- `generateDotPatterns` (lines 592-608): the three rings concatenated. -/
def generateDotPatterns (c : MandalaColors) (_style : MandalaStyle) (rng : Nat) :
    List MandalaDot × Nat :=
  ((dotRingRadii.map (dotsForRing c)).flatten, rng)

/-- Cartesian x-coordinate of an emitted dot:
`Math.cos(angle * Math.PI / 180) * radius` (line 600). -/
noncomputable def dotX (d : MandalaDot) : ℝ :=
  Real.cos ((d.thetaDeg : ℝ) * Real.pi / 180) * (d.ring : ℝ)

/-- Cartesian y-coordinate of an emitted dot:
`Math.sin(angle * Math.PI / 180) * radius` (line 601). -/
noncomputable def dotY (d : MandalaDot) : ℝ :=
  Real.sin ((d.thetaDeg : ℝ) * Real.pi / 180) * (d.ring : ℝ)

/-- `generateCenterMotif` (lines 610-616). -/
def generateCenterMotif (c : MandalaColors) (_style : MandalaStyle) (rng : Nat) : String × Nat :=
  ("\n      <circle r=\"15\" fill=\"" ++ c.center
    ++ "\" opacity=\"0.9\"/>\n      <circle r=\"10\" fill=\"" ++ c.accent
    ++ "\" opacity=\"0.8\"/>\n      <circle r=\"5\" fill=\"" ++ c.dots
    ++ "\" opacity=\"1\"/>\n    ", rng)

/-! ## The SVG composition (`createSVGMandala`, gemini.ts lines 397-444) -/

/-- Structured result of one composition: every string layer verbatim, the
dot field structurally, and the two overlay stroke colors. -/
structure SVGScene where
  gradients : String
  patterns : String
  filters : String
  outerRing : String
  middleRings : String
  innerPatterns : String
  detailedPetals : String
  sacredGeometry : String
  dotLayer : List MandalaDot
  centerMotif : String
  enhanceOuterRing : String
  enhancePetals : String
  overlayDots : String
  overlayAccent : String
deriving DecidableEq

/-- `createSVGMandala` with the PRNG state made explicit: the seed is
derived, the closure state initialised to it, and every generator is called
in the evaluation order of the source template literal, threading the
state.  The second component is the closure state left after composing. -/
def createSVGMandalaS (prompt : String) (bw : Option BrainwaveData) : SVGScene × Nat :=
  let seed := createSeedFromInput prompt bw
  let colors := extractColorsFromPrompt prompt
  let mandalaStyle := determineMandalaStyle prompt
  let r0 := addColorVariation colors seed
  let variantColors := r0.1
  let r1 := generateGradients variantColors mandalaStyle r0.2
  let r2 := generatePatterns variantColors r1.2
  let fi := generateFilters
  let r3 := generateOuterRing variantColors mandalaStyle r2.2
  let r4 := generateMiddleRings variantColors mandalaStyle r3.2
  let r5 := generateInnerPatterns variantColors mandalaStyle r4.2
  let r6 := generateDetailedPetals variantColors mandalaStyle r5.2
  let r7 := generateSacredGeometry variantColors mandalaStyle r6.2
  let r8 := generateDotPatterns variantColors mandalaStyle r7.2
  let r9 := generateCenterMotif variantColors mandalaStyle r8.2
  let r10 := generateOuterRing variantColors mandalaStyle r9.2
  let r11 := generateDetailedPetals variantColors mandalaStyle r10.2
  ({ gradients := r1.1, patterns := r2.1, filters := fi,
     outerRing := r3.1, middleRings := r4.1, innerPatterns := r5.1,
     detailedPetals := r6.1, sacredGeometry := r7.1, dotLayer := r8.1,
     centerMotif := r9.1, enhanceOuterRing := r10.1, enhancePetals := r11.1,
     overlayDots := variantColors.dots, overlayAccent := variantColors.accent }, r11.2)

/-- The composed scene of `createSVGMandala`. -/
def createSVGMandala (prompt : String) (bw : Option BrainwaveData) : SVGScene :=
  (createSVGMandalaS prompt bw).1

/-- Injective textual rendering of a rational number. -/
def ratText (q : ℚ) : String :=
  toString q.num ++ "/" ++ toString q.den

/-- Symbolic rendering of one dot-field circle.  The source renders
`cx`/`cy` by formatting the `Math.cos`/`Math.sin` floats; that byte format
is not statable, so the serializer emits the defining polar data instead. -/
def dotText (d : MandalaDot) : String :=
  "<circle ring=\"" ++ toString d.ring ++ "\" theta=\"" ++ ratText d.thetaDeg
    ++ "\" r=\"2\" fill=\"" ++ d.fill ++ "\" opacity=\"0.8\"/>"

/-- Serialization of the composed scene to the SVG markup of the source
template literal (dot positions rendered symbolically). -/
def sceneToString (s : SVGScene) : String :=
  "\n      <svg width=\"512\" height=\"512\" viewBox=\"0 0 512 512\" xmlns=\"http://www.w3.org/2000/svg\">\n        <defs>\n          "
  ++ s.gradients ++ "\n          " ++ s.patterns ++ "\n          " ++ s.filters
  ++ "\n        </defs>\n        \n        <rect width=\"512\" height=\"512\" fill=\"url(#bgGradient)\"/>\n        \n        <g transform=\"translate(256,256)\">\n          "
  ++ s.outerRing ++ "\n          " ++ s.middleRings ++ "\n          " ++ s.innerPatterns
  ++ "\n          " ++ s.detailedPetals ++ "\n          " ++ s.sacredGeometry
  ++ "\n          " ++ String.join (s.dotLayer.map dotText) ++ "\n          " ++ s.centerMotif
  ++ "\n          \n          <g opacity=\"0.7\">\n            " ++ s.enhanceOuterRing
  ++ "\n          </g>\n          <g opacity=\"0.5\" transform=\"rotate(45)\">\n            " ++ s.enhancePetals
  ++ "\n          </g>\n        </g>\n        \n        <circle cx=\"256\" cy=\"256\" r=\"250\" fill=\"none\" stroke=\""
  ++ s.overlayDots ++ "\" stroke-width=\"1\" opacity=\"0.3\"/>\n        <circle cx=\"256\" cy=\"256\" r=\"200\" fill=\"none\" stroke=\""
  ++ s.overlayAccent ++ "\" stroke-width=\"0.5\" opacity=\"0.5\"/>\n      </svg>\n    "

/-- The serialized SVG markup of one composition. -/
def svgMarkup (prompt : String) (bw : Option BrainwaveData) : String :=
  sceneToString (createSVGMandala prompt bw)

/-! ## Base64 and the fallback artifact (`generateFallbackMandala`, lines 385-395) -/

/-- The base64 alphabet. -/
def b64Alphabet : String :=
  "ABCDEFGHIJKLMNOPQRSTUVWXYZabcdefghijklmnopqrstuvwxyz0123456789+/"

/-- Digit of the base64 alphabet. -/
def b64Digit (n : Nat) : Char :=
  b64Alphabet.data.getD n 'A'

/-- Standard base64 of a byte list (`Buffer.toString("base64")`). -/
def base64Encode : List Nat → String
  | [] => ""
  | [a] =>
    String.mk [b64Digit (a / 4), b64Digit (a % 4 * 16), '=', '=']
  | [a, b] =>
    String.mk [b64Digit (a / 4), b64Digit (a % 4 * 16 + b / 16), b64Digit (b % 16 * 4), '=']
  | a :: b :: c :: rest =>
    String.mk [b64Digit (a / 4), b64Digit (a % 4 * 16 + b / 16),
               b64Digit (b % 16 * 4 + c / 64), b64Digit (c % 64)]
      ++ base64Encode rest

/-- UTF-8 bytes of a string (`Buffer.from(svgMandala)`). -/
def strBytes (s : String) : List Nat :=
  s.toUTF8.toList.map (fun b => b.toNat)

/-- The artifact record returned to callers. -/
structure GeneratedMandala where
  imageUrl : String
  prompt : String
  revisedPrompt : String
deriving DecidableEq

/-- `generateFallbackMandala`: compose locally, wrap the markup as an
inline base64 data URI, echo the prompt argument. -/
def generateFallbackMandala (prompt : String) (bw : Option BrainwaveData) : GeneratedMandala :=
  { imageUrl := "data:image/svg+xml;base64," ++ base64Encode (strBytes (svgMarkup prompt bw)),
    prompt := prompt,
    revisedPrompt := "Fallback mandala generated locally with unique variations: " ++ prompt }

/-! ## Remote orchestration (`generateMandalaImage`, lines 138-284, and
`generateMandalaPrompt`, lines 48-136) -/

/-- One part of a remote image response: descriptive text or inline
base64 image data. -/
inductive ResponsePart where
  | text (s : String)
  | inlineData (data : String)
deriving DecidableEq

/-- Outcome of one remote image attempt: a thrown error (network failure,
missing candidates, missing content — all caught by the same handler) or
the response parts. -/
def ImageAttempt : Type := Except String (List ResponsePart)

/-- Is a part inline image data? -/
def isInlinePart : ResponsePart → Bool
  | .inlineData _ => true
  | _ => false

/-- Did the attempt produce an image (line 250: some part carries
`inlineData`)? -/
def imageAttemptSucceeds : ImageAttempt → Bool
  | .error _ => false
  | .ok parts => parts.any isInlinePart

/-- Last text part seen by the response loop (lines 246-249 overwrite
`revisedPrompt` on every text part, starting from the empty string). -/
def lastTextPart (parts : List ResponsePart) : String :=
  parts.foldl (fun acc p => match p with | .text s => s | .inlineData _ => acc) ""

/-- One iteration of the image retry loop: `none` means the iteration
threw (and was caught); `some` is the returned artifact.  `ts` is the
`Date.now()` timestamp used in the saved filename. -/
def runImageAttempt (r : ImageAttempt) (ts : Nat) (ep : String) : Option GeneratedMandala :=
  match r with
  | .error _ => none
  | .ok parts =>
    if parts.any isInlinePart then
      some { imageUrl := "/attached_assets/mandala_" ++ toString ts ++ ".png",
             prompt := ep,
             revisedPrompt :=
               if lastTextPart parts = "" then
                 "Gemini generated mandala: " ++ ep
               else lastTextPart parts }
    else none

/-- `generateMandalaImage` with its two remote attempts made explicit:
first success returns; exhaustion falls back to the local composition.
The function is total — every attempt error is consumed. -/
def generateMandalaImage (r1 r2 : ImageAttempt) (ts1 ts2 : Nat)
    (prompt : String) (bw : Option BrainwaveData) : GeneratedMandala :=
  let ep := enhancedPrompt prompt bw
  match runImageAttempt r1 ts1 ep with
  | some a => a
  | none =>
    match runImageAttempt r2 ts2 ep with
    | some a => a
    | none => generateFallbackMandala prompt bw

/-- Outcome of one remote prompt attempt: a thrown error, or the parsed
JSON `prompt` field (`none` when the field is absent; the empty string is
falsy and also routes to the fallback). -/
def PromptAttempt : Type := Except String (Option String)

/-- Did the attempt throw (and get caught by the retry handler)? -/
def promptAttemptThrew : PromptAttempt → Bool
  | .error _ => true
  | .ok _ => false

/-- One iteration of the prompt retry loop: `none` means the iteration
threw; on a parsed response the source returns
`result.prompt || this.getFallbackPrompt(options)` immediately. -/
def runPromptAttempt (r : PromptAttempt) (opts : MandalaGenerationOptions) : Option String :=
  match r with
  | .error _ => none
  | .ok j =>
    some (match j with
          | some s => if s = "" then getFallbackPrompt opts else s
          | none => getFallbackPrompt opts)

/-- `generateMandalaPrompt` with its three remote attempts made explicit;
exhaustion falls back to the local prompt. -/
def generateMandalaPrompt (r1 r2 r3 : PromptAttempt)
    (opts : MandalaGenerationOptions) : String :=
  match runPromptAttempt r1 opts with
  | some s => s
  | none =>
    match runPromptAttempt r2 opts with
    | some s => s
    | none =>
      match runPromptAttempt r3 opts with
      | some s => s
      | none => getFallbackPrompt opts

/-! ## Claim theorems -/

/-- C3: `createSeedFromInput` is a pure total function that folds
`h = (h*31 + charCode)` truncated to 32-bit signed (implemented as
`((h << 5) - h) + char`) over the UTF-16 code units of the text
concatenated with the decimal digits of the biometric triple, and returns
`abs(h)`; the empty string (with absent biometrics) yields seed 0, and
identical inputs always yield identical seeds. -/
theorem createSeedFromInput_spec :
    createSeedFromInput "" none = 0
    ∧ (∀ (h : Int) (c : Nat), hashStep h c = toInt32 (h * 31 + (c : Int)))
    ∧ (∀ (p : String) (bw : Option BrainwaveData),
        createSeedFromInput p bw
          = (List.foldl hashStep 0 (utf16CodeUnits (p ++ brainwaveDigits bw))).natAbs)
    ∧ (∀ (p p' : String) (bw bw' : Option BrainwaveData), p = p' → bw = bw' →
        createSeedFromInput p bw = createSeedFromInput p' bw') := by
  refine ⟨by decide, ?_, fun p bw => rfl, ?_⟩
  · intro h c
    simp only [hashStep, toInt32]
    omega
  · intro p p' bw bw' hp hbw
    subst hp; subst hbw; rfl

/-- Witness for C3: the determinism conjunct applied at a concrete input,
together with a concrete evaluation of the seed. -/
theorem createSeedFromInput_spec_witness :
    createSeedFromInput "abc" (some ⟨50, 60, 70⟩) = createSeedFromInput "abc" (some ⟨50, 60, 70⟩)
    ∧ createSeedFromInput "abc" (some ⟨50, 60, 70⟩) = 1000820976 :=
  ⟨createSeedFromInput_spec.2.2.2 "abc" "abc" (some ⟨50, 60, 70⟩) (some ⟨50, 60, 70⟩) rfl rfl,
   by decide⟩

/-- C4: the generator of `createSeededRandom` advances its state by
`s = (s * 9301 + 49297) % 233280` on each call and returns `s / 233280`;
generators from the same seed produce identical first-N draws; and every
draw lies in `[0, 1)`. -/
theorem createSeededRandom_spec :
    (∀ seed n, lcgState seed (n + 1) = (lcgState seed n * 9301 + 49297) % 233280)
    ∧ (∀ seed n, 0 ≤ createSeededRandom seed n ∧ createSeededRandom seed n < 1)
    ∧ (∀ s1 s2 N, s1 = s2 → lcgDraws s1 N = lcgDraws s2 N) := by
  refine ⟨fun seed n => rfl, ?_, ?_⟩
  · intro seed n
    refine ⟨div_nonneg (Nat.cast_nonneg _) (by norm_num), ?_⟩
    rw [createSeededRandom, div_lt_one (by norm_num)]
    have h : lcgState seed (n + 1) < 233280 := by
      show lcgNext (lcgState seed n) < 233280
      exact Nat.mod_lt _ (by norm_num)
    exact_mod_cast h
  · intro s1 s2 N h
    subst h; rfl

/-- Witness for C4: identical draws from equal seeds at a concrete seed,
and a concrete first draw with its exact value. -/
theorem createSeededRandom_spec_witness :
    lcgDraws 42 5 = lcgDraws 42 5
    ∧ createSeededRandom 42 0 = (206659 : ℚ) / 233280 :=
  ⟨createSeededRandom_spec.2.2 42 42 5 rfl, by norm_num [createSeededRandom, lcgState, lcgNext]⟩

/-- C5: `extractThemesFromVoice` is total over all strings; each flag is
the result of its word-boundary alternation regex on the lower-cased
transcript; the empty transcript yields all-false; and the sentence from
the specification yields exactly love and peace. -/
theorem extractThemesFromVoice_spec :
    extractThemesFromVoice "" = ⟨false, false, false, false, false⟩
    ∧ extractThemesFromVoice "I feel so much love and peace"
        = ⟨true, true, false, false, false⟩
    ∧ (∀ s : String, extractThemesFromVoice s =
        ⟨testAnyWord peaceWords (jsToLower s), testAnyWord loveWords (jsToLower s),
         testAnyWord strengthWords (jsToLower s), testAnyWord growthWords (jsToLower s),
         testAnyWord gratitudeWords (jsToLower s)⟩) := by
  refine ⟨by decide, by decide, ?_⟩
  intro s
  by_cases h : s = ""
  · subst h; decide
  · simp [extractThemesFromVoice, h]

/-- C6: `determineMandalaStyle` resolves by first-match priority: dot
keywords, then sacred keywords, then floral keywords, then the default;
in particular `"a sacred dot painting"` resolves to `dotpainting`. -/
theorem determineMandalaStyle_spec :
    (∀ p, hasDotKeyword p = true → determineMandalaStyle p = .dotpainting)
    ∧ (∀ p, hasDotKeyword p = false → hasSacredKeyword p = true →
        determineMandalaStyle p = .sacred)
    ∧ (∀ p, hasDotKeyword p = false → hasSacredKeyword p = false →
        hasFloralKeyword p = true → determineMandalaStyle p = .floral)
    ∧ (∀ p, hasDotKeyword p = false → hasSacredKeyword p = false →
        hasFloralKeyword p = false → determineMandalaStyle p = .geometric)
    ∧ determineMandalaStyle "a sacred dot painting" = .dotpainting := by
  refine ⟨?_, ?_, ?_, ?_, by decide⟩
  · intro p h1; simp [determineMandalaStyle, h1]
  · intro p h1 h2; simp [determineMandalaStyle, h1, h2]
  · intro p h1 h2 h3; simp [determineMandalaStyle, h1, h2, h3]
  · intro p h1 h2 h3; simp [determineMandalaStyle, h1, h2, h3]

/-- Witness for C6: the dot rule and the default rule applied at concrete
prompts. -/
theorem determineMandalaStyle_spec_witness :
    determineMandalaStyle "connect the dots" = .dotpainting
    ∧ determineMandalaStyle "plain mandala" = .geometric :=
  ⟨determineMandalaStyle_spec.1 "connect the dots" (by decide),
   determineMandalaStyle_spec.2.2.2.1 "plain mandala" (by decide) (by decide) (by decide)⟩

/-- C2: for a fixed input pair, `createSVGMandala` is a deterministic
function: two invocations produce the same scene and hence byte-identical
serialized SVG, `generateFallbackMandala` produces identical data URIs,
and the composition leaves the PRNG closure state exactly at the derived
seed — no layer consumed any hidden randomness across the run. -/
theorem createSVGMandala_deterministic :
    ∀ (p : String) (bw : Option BrainwaveData),
      createSVGMandalaS p bw = createSVGMandalaS p bw
      ∧ svgMarkup p bw = svgMarkup p bw
      ∧ (createSVGMandalaS p bw).2 = createSeedFromInput p bw
      ∧ (generateFallbackMandala p bw).imageUrl = (generateFallbackMandala p bw).imageUrl := by
  intro p bw
  exact ⟨rfl, rfl, rfl, rfl⟩

/-- C9: the composed scene — and hence the serialized SVG — is fully
determined by the prompt text alone: two brainwave-data values (present or
absent) yield identical output, `addColorVariation` returns its color
argument unchanged, and no layer generator advances the PRNG state it is
passed. -/
theorem createSVGMandala_biometric_independent :
    ∀ (p : String) (b b' : Option BrainwaveData),
      createSVGMandala p b = createSVGMandala p b'
      ∧ svgMarkup p b = svgMarkup p b'
      ∧ (∀ (c : MandalaColors) (rng : Nat), addColorVariation c rng = (c, rng))
      ∧ (∀ (c : MandalaColors) (st : MandalaStyle) (rng : Nat),
          (generateGradients c st rng).2 = rng ∧ (generatePatterns c rng).2 = rng
          ∧ (generateOuterRing c st rng).2 = rng ∧ (generateMiddleRings c st rng).2 = rng
          ∧ (generateInnerPatterns c st rng).2 = rng ∧ (generateDetailedPetals c st rng).2 = rng
          ∧ (generateSacredGeometry c st rng).2 = rng ∧ (generateDotPatterns c st rng).2 = rng
          ∧ (generateCenterMotif c st rng).2 = rng) := by
  intro p b b'
  exact ⟨rfl, rfl, fun c rng => rfl,
    fun c st rng => ⟨rfl, rfl, rfl, rfl, rfl, rfl, rfl, rfl, rfl⟩⟩

/-- C7: the outer ring emits exactly `petalCount = 12` motifs at equal
angular spacing `360 / 12` spanning 360 degrees in total, and the dot
field iterates the fixed ascending radius list `[20, 35, 50]`, placing
`floor(r / 2)` dots per ring, spaced by `360 / floor(r / 2)` degrees, at
Cartesian position `(r·cos θ, r·sin θ)` with θ converted from degrees to
radians. -/
theorem ringStructure_spec :
    outerRingAngles.length = outerPetalCount
    ∧ outerPetalCount = 12
    ∧ (∀ i, i < outerPetalCount → outerRingAngles[i]? = some ((360 / outerPetalCount) * i))
    ∧ outerPetalCount * (360 / outerPetalCount) = 360
    ∧ (∀ c st rng, (generateOuterRing c st rng).1
        = String.join (outerRingAngles.map (outerRingMotif c)))
    ∧ dotRingRadii = [20, 35, 50]
    ∧ (20 < 35 ∧ 35 < 50)
    ∧ (∀ c r, (dotsForRing c r).length = r / 2)
    ∧ (∀ c r i, i < r / 2 → (dotsForRing c r)[i]?
        = some { ring := r, thetaDeg := ((360 : ℚ) / ((r / 2 : Nat) : ℚ)) * i, fill := c.dots })
    ∧ (∀ (r : Nat) (i : ℚ), ((360 : ℚ) / ((r / 2 : Nat) : ℚ)) * (i + 1)
        - ((360 : ℚ) / ((r / 2 : Nat) : ℚ)) * i = (360 : ℚ) / ((r / 2 : Nat) : ℚ))
    ∧ (∀ d : MandalaDot,
        dotX d = Real.cos ((d.thetaDeg : ℝ) * Real.pi / 180) * (d.ring : ℝ)
        ∧ dotY d = Real.sin ((d.thetaDeg : ℝ) * Real.pi / 180) * (d.ring : ℝ))
    ∧ (∀ c st rng, (generateDotPatterns c st rng).1 = (dotRingRadii.map (dotsForRing c)).flatten) := by
  refine ⟨by decide, rfl, ?_, by decide, fun c st rng => rfl, rfl, by decide, ?_, ?_, ?_,
    fun d => ⟨rfl, rfl⟩, fun c st rng => rfl⟩
  · intro i hi
    rw [outerRingAngles, List.getElem?_map, List.getElem?_range hi]
    rfl
  · intro c r
    rw [dotsForRing, List.length_map, List.length_range]
  · intro c r i hi
    rw [dotsForRing, List.getElem?_map, List.getElem?_range hi]
    rfl
  · intro r i
    ring

/-- Witness for C7: the indexed conjuncts applied at concrete indices. -/
theorem ringStructure_spec_witness :
    outerRingAngles[3]? = some 90
    ∧ (dotsForRing defaultColors 35)[0]? = some ⟨35, 0, "#e3f2fd"⟩ := by
  constructor
  · have h := ringStructure_spec.2.2.1 3 (by decide)
    simpa using h
  · have h := ringStructure_spec.2.2.2.2.2.2.2.2.1 defaultColors 35 0 (by decide)
    simpa using h

/-- C8: the numeric-to-style mapping of `generateMandalaImage` uses strict
thresholds — attention above 70 selects the precise descriptor, below 30
the flowing one, with 30 and 70 themselves in the balanced band; the same
for meditation with the calm/energetic descriptors; and signal quality
below 50 appends the ethereal modifier without changing the descriptors
chosen on the attention and meditation axes. -/
theorem brainwaveThresholds_spec :
    ∀ a m q : Nat,
      (70 < a → complexityLevel ⟨a, m, q⟩
        = "highly intricate and precisely detailed with sharp geometric precision")
      ∧ (a < 30 → complexityLevel ⟨a, m, q⟩ = "flowing and organic with soft, dreamy details")
      ∧ complexityLevel ⟨70, m, q⟩ = "balanced complexity with harmonious details"
      ∧ complexityLevel ⟨30, m, q⟩ = "balanced complexity with harmonious details"
      ∧ (70 < m → colorIntensity ⟨a, m, q⟩
        = "deep, calming colors with gentle gradients and peaceful luminescence")
      ∧ (m < 30 → colorIntensity ⟨a, m, q⟩
        = "vibrant, dynamic colors with energetic contrasts and bright highlights")
      ∧ colorIntensity ⟨a, 70, q⟩ = "balanced color palette with moderate intensity and natural harmony"
      ∧ colorIntensity ⟨a, 30, q⟩ = "balanced color palette with moderate intensity and natural harmony"
      ∧ (q < 50 → styleModifiers ⟨a, m, q⟩
        = attentionModifier ⟨a, m, q⟩ ++ meditationModifier ⟨a, m, q⟩
            ++ "with subtle ethereal effects and mystical atmosphere, ")
      ∧ (∀ q', complexityLevel ⟨a, m, q⟩ = complexityLevel ⟨a, m, q'⟩
          ∧ colorIntensity ⟨a, m, q⟩ = colorIntensity ⟨a, m, q'⟩
          ∧ attentionModifier ⟨a, m, q⟩ = attentionModifier ⟨a, m, q'⟩
          ∧ meditationModifier ⟨a, m, q⟩ = meditationModifier ⟨a, m, q'⟩) := by
  intro a m q
  refine ⟨?_, ?_, rfl, rfl, ?_, ?_, rfl, rfl, ?_, fun q' => ⟨rfl, rfl, rfl, rfl⟩⟩
  · intro h; simp only [complexityLevel]; rw [if_pos h]
  · intro h
    simp only [complexityLevel]
    rw [if_neg (by omega), if_pos h]
  · intro h; simp only [colorIntensity]; rw [if_pos h]
  · intro h
    simp only [colorIntensity]
    rw [if_neg (by omega), if_pos h]
  · intro h
    simp only [styleModifiers, signalModifier]
    rw [if_pos h]

/-- Witness for C8: the threshold branches applied at the concrete triple
(attention 80, meditation 20, signal quality 40). -/
theorem brainwaveThresholds_spec_witness :
    complexityLevel ⟨80, 20, 40⟩
      = "highly intricate and precisely detailed with sharp geometric precision"
    ∧ colorIntensity ⟨80, 20, 40⟩
      = "vibrant, dynamic colors with energetic contrasts and bright highlights"
    ∧ styleModifiers ⟨80, 20, 40⟩
      = attentionModifier ⟨80, 20, 40⟩ ++ meditationModifier ⟨80, 20, 40⟩
          ++ "with subtle ethereal effects and mystical atmosphere, " := by
  obtain ⟨h1, _, _, _, _, h6, _, _, h9, _⟩ := brainwaveThresholds_spec 80 20 40
  exact ⟨h1 (by decide), h6 (by decide), h9 (by decide)⟩

/-- C10: a voice transcript of JavaScript length at most 5 contributes no
theme-symbolism sentence to the fallback prompt, even when a theme regex
matches the transcript — the theme-integration block is guarded by
`voiceTranscript.length > 5`.  In particular the transcript `"love"` sets
the love theme flag yet the fallback prompt is exactly the concatenation
with an empty theme segment. -/
theorem shortTranscript_noThemeSentence :
    ∀ opts : MandalaGenerationOptions,
      utf16Length opts.voiceTranscript ≤ 5 →
      themeSegment opts = ""
      ∧ getFallbackPrompt opts
        = fallbackBase ++ fallbackAttention opts.brainwaveData
            ++ fallbackMeditation opts.brainwaveData ++ fallbackColorScheme opts
            ++ "" ++ fallbackAesthetic opts ++ fallbackTail
      ∧ (extractThemesFromVoice "love").love = true := by
  intro opts h
  have h1 : themeSegment opts = "" := by
    rw [themeSegment]
    rw [if_neg]
    intro hc
    omega
  refine ⟨h1, ?_, by decide⟩
  rw [getFallbackPrompt, h1]

/-- Witness for C10: the guard applied at the transcript `"love"`, whose
love flag is set while its theme segment is empty. -/
theorem shortTranscript_noThemeSentence_witness :
    themeSegment ⟨"love", ⟨50, 50, 50⟩, none, none⟩ = ""
    ∧ (extractThemesFromVoice "love").love = true :=
  ⟨(shortTranscript_noThemeSentence ⟨"love", ⟨50, 50, 50⟩, none, none⟩ (by decide)).1,
   (shortTranscript_noThemeSentence ⟨"love", ⟨50, 50, 50⟩, none, none⟩ (by decide)).2.2⟩

/-- C1 counterexample: with the empty prompt string and both remote image
attempts failing, the returned artifact's `prompt` field is the empty
string — the source's fallback path echoes the caller's `prompt` argument
(`prompt: prompt`), so the field is not always non-empty as C1 states. -/
theorem emptyPrompt_fallback_counterexample :
    imageAttemptSucceeds (.error "service unavailable" : ImageAttempt) = false
    ∧ (generateMandalaImage (.error "service unavailable" : ImageAttempt)
        (.error "service unavailable") 0 1 "" none).prompt = "" :=
  ⟨rfl, rfl⟩

/-- C1 (amended): if both remote image attempts fail, `generateMandalaImage`
totally returns an artifact whose `imageUrl` is an inline base64 data URI
with prefix `data:image/svg+xml;base64,` and whose `prompt` field equals
the caller's prompt argument (hence non-empty whenever that argument is);
and if all three remote prompt attempts throw, `generateMandalaPrompt`
returns the local fallback prompt, which is never empty. -/
theorem fallbackGuarantee_spec :
    ∀ (r1 r2 : ImageAttempt) (ts1 ts2 : Nat) (p : String) (bw : Option BrainwaveData)
      (q1 q2 q3 : PromptAttempt) (opts : MandalaGenerationOptions),
      imageAttemptSucceeds r1 = false → imageAttemptSucceeds r2 = false →
      promptAttemptThrew q1 = true → promptAttemptThrew q2 = true →
      promptAttemptThrew q3 = true →
      (∃ payload, (generateMandalaImage r1 r2 ts1 ts2 p bw).imageUrl
          = "data:image/svg+xml;base64," ++ payload)
      ∧ (generateMandalaImage r1 r2 ts1 ts2 p bw).prompt = p
      ∧ generateMandalaPrompt q1 q2 q3 opts = getFallbackPrompt opts
      ∧ getFallbackPrompt opts ≠ "" := by
  intro r1 r2 ts1 ts2 p bw q1 q2 q3 opts h1 h2 hq1 hq2 hq3
  have e1 : runImageAttempt r1 ts1 (enhancedPrompt p bw) = none := by
    cases r1 with
    | error e => rfl
    | ok parts =>
      simp only [imageAttemptSucceeds] at h1
      simp [runImageAttempt, h1]
  have e2 : runImageAttempt r2 ts2 (enhancedPrompt p bw) = none := by
    cases r2 with
    | error e => rfl
    | ok parts =>
      simp only [imageAttemptSucceeds] at h2
      simp [runImageAttempt, h2]
  have himg : generateMandalaImage r1 r2 ts1 ts2 p bw = generateFallbackMandala p bw := by
    rw [generateMandalaImage]
    rw [e1, e2]
  have hprompt : generateMandalaPrompt q1 q2 q3 opts = getFallbackPrompt opts := by
    cases q1 with
    | ok j => simp [promptAttemptThrew] at hq1
    | error e1 =>
      cases q2 with
      | ok j => simp [promptAttemptThrew] at hq2
      | error e2 =>
        cases q3 with
        | ok j => simp [promptAttemptThrew] at hq3
        | error e3 => rfl
  have hne : getFallbackPrompt opts ≠ "" := by
    intro hc
    have hlen : (getFallbackPrompt opts).length = 0 := by rw [hc]; rfl
    rw [getFallbackPrompt] at hlen
    simp only [String.length_append] at hlen
    have hb : 0 < fallbackBase.length := by decide
    omega
  exact ⟨⟨base64Encode (strBytes (svgMarkup p bw)), by rw [himg]; rfl⟩,
    by rw [himg]; rfl, hprompt, hne⟩

/-- Witness for C1 (amended): both image attempts and all three prompt
attempts thrown, at a concrete prompt and option record. -/
theorem fallbackGuarantee_spec_witness :
    (∃ payload, (generateMandalaImage (.error "down" : ImageAttempt) (.error "down") 5 6
        "lotus" none).imageUrl = "data:image/svg+xml;base64," ++ payload)
    ∧ (generateMandalaImage (.error "down" : ImageAttempt) (.error "down") 5 6
        "lotus" none).prompt = "lotus"
    ∧ generateMandalaPrompt (.error "a" : PromptAttempt) (.error "b") (.error "c")
        ⟨"hi", ⟨50, 50, 50⟩, none, none⟩ = getFallbackPrompt ⟨"hi", ⟨50, 50, 50⟩, none, none⟩
    ∧ getFallbackPrompt ⟨"hi", ⟨50, 50, 50⟩, none, none⟩ ≠ "" :=
  fallbackGuarantee_spec (.error "down") (.error "down") 5 6 "lotus" none
    (.error "a") (.error "b") (.error "c") ⟨"hi", ⟨50, 50, 50⟩, none, none⟩
    rfl rfl rfl rfl rfl
